import Mathlib

/-!
Shallow embedding of the task-store and AI-workflow logic of
`src/App.js` (AI-Powered Task Manager).

The store operations (`addTask`, `deleteTask`, `toggleComplete`,
`handleDrop`, `toggleSubTasksVisibility`) and the two AI workflows
(`analyzeTaskWithAI`, `breakdownTaskWithAI`) are translated from the
source.  JavaScript values flowing out of the external JSON API are
modelled by the inductive `JsValue`; `JSON.parse` is an external
primitive of the browser and is passed to the workflows as an abstract
function `jsonParse : JsValue → Except String JsValue` (an `.error msg`
models a thrown exception whose `message` is `msg`).
-/

namespace TaskManager

/-- Board status of a task: the string field `status` of App.js takes
exactly the values `'todo'`, `'in-progress'`, `'done'`. -/
inductive Status where
  | todo
  | inProgress
  | done
deriving DecidableEq, Repr

/-- JavaScript values as they appear in the AI response plumbing:
`undefined` models `undefined` (in particular the result of reading an
absent object property). -/
inductive JsValue where
  | undefined : JsValue
  | null : JsValue
  | bool : Bool → JsValue
  | num : Int → JsValue
  | str : String → JsValue
  | arr : List JsValue → JsValue
  | obj : List (String × JsValue) → JsValue

/-- JS property read `v.k`: the value bound to key `k` when `v` is an
object having it, `undefined` otherwise. -/
def JsValue.get : JsValue → String → JsValue
  | .obj fields, k => ((fields.find? (fun p => p.1 == k)).map (fun p => p.2)).getD .undefined
  | _, _ => .undefined

/-- JS element read `v[i]` for a numeric index on an array. -/
def JsValue.item : JsValue → Nat → JsValue
  | .arr xs, i => (xs.get? i).getD .undefined
  | _, _ => .undefined

/-- JS truthiness of a value, as used by the `&&` chains of App.js. -/
def JsValue.truthy : JsValue → Bool
  | .undefined => false
  | .null => false
  | .bool b => b
  | .num n => decide (n ≠ 0)
  | .str s => decide (s ≠ "")
  | .arr _ => true
  | .obj _ => true

/-- JS test `v.length > 0`: the `length` property is defined for arrays
and strings; on any other value the comparison is false (`undefined > 0`
is false). -/
def JsValue.lengthPos : JsValue → Bool
  | .arr xs => decide (0 < xs.length)
  | .str s => decide (0 < s.length)
  | _ => false

/-- A task record as created and updated by App.js. -/
structure Task where
  id : Nat
  text : String
  completed : Bool
  status : Status
  aiAnalysis : Option JsValue
  aiSubTasks : Option JsValue
  isSubTasksVisible : Bool

/-- Whitespace stripped by JavaScript `String.prototype.trim` (ECMA-262
WhiteSpace and LineTerminator): tab, LF, VT, FF, CR, space, NBSP, BOM, the
Unicode space separators, and the line and paragraph separators. -/
def isJsWhitespace (c : Char) : Bool :=
  c = '\t' || c = '\n' || c = '\x0b' || c = '\x0c' || c = '\r' ||
  c = '\u0020' || c = '\u00A0' || c = '\u1680' || c = '\u2000' || c = '\u2001' ||
  c = '\u2002' || c = '\u2003' || c = '\u2004' || c = '\u2005' || c = '\u2006' ||
  c = '\u2007' || c = '\u2008' || c = '\u2009' || c = '\u200A' || c = '\u2028' ||
  c = '\u2029' || c = '\u202F' || c = '\u205F' || c = '\u3000' || c = '\uFEFF'

/-- JavaScript `text.trim()` on a string: strip leading and trailing
whitespace. -/
def jsTrim (s : String) : String :=
  String.mk (((s.data.dropWhile isJsWhitespace).reverse.dropWhile isJsWhitespace).reverse)

/-- The component's pending-input state: App.js line 13,
`const [newTaskText, setNewTaskText] = ''`, destructures the empty string —
an iterable yielding no elements — instead of calling useState, so
`newTaskText` is permanently `undefined`. -/
def newTaskText : JsValue := JsValue.undefined

/-- `addTask` (App.js lines 30-37): reads the pending input value and calls
`.trim()` on it.  Only a string has a `trim` method: on `undefined` or `null`
the property read throws a TypeError, and on any other value the call throws
because the property is not a function; a thrown error propagates out of the
handler (`Except.error` carries its message) and `setTasks` is never reached.
When the pending value is a string, a non-blank trimmed text appends one
fresh task carrying the untrimmed text. -/
def addTask (pending : JsValue) (newId : Nat) (tasks : List Task) :
    Except String (List Task) :=
  match pending with
  | JsValue.str text =>
      Except.ok (if jsTrim text ≠ "" then
        tasks ++ [{ id := newId, text := text, completed := false, status := Status.todo,
                    aiAnalysis := none, aiSubTasks := none, isSubTasksVisible := false }]
      else tasks)
  | JsValue.undefined =>
      Except.error "Cannot read properties of undefined (reading 'trim')"
  | JsValue.null =>
      Except.error "Cannot read properties of null (reading 'trim')"
  | _ => Except.error "newTaskText.trim is not a function"

/-- `toggleComplete` (App.js lines 40-49). -/
def toggleComplete (id : Nat) (tasks : List Task) : List Task :=
  tasks.map fun task =>
    if task.id = id then
      let newStatus := if !task.completed then Status.done else Status.todo
      { task with completed := !task.completed, status := newStatus }
    else
      task

/-- `toggleSubTasksVisibility` (App.js lines 52-56). -/
def toggleSubTasksVisibility (id : Nat) (tasks : List Task) : List Task :=
  tasks.map fun task =>
    if task.id = id then { task with isSubTasksVisible := !task.isSubTasksVisible } else task

/-- `deleteTask` (App.js lines 59-61). -/
def deleteTask (id : Nat) (tasks : List Task) : List Task :=
  tasks.filter fun task => task.id ≠ id

/-- `handleDrop` (App.js lines 72-82), abstracted over the dropped
task's id (the drag payload carries the numeric id through a
string round trip: `parseInt` of the id set by `handleDragStart`). -/
def handleDrop (taskId : Nat) (newStatus : Status) (tasks : List Task) : List Task :=
  tasks.map fun task =>
    if task.id = taskId then
      let newCompleted := if newStatus = Status.done then true else false
      { task with status := newStatus, completed := newCompleted }
    else
      task

/-- The store write of the analysis workflow (App.js lines 136-138 and
141-143): sets `aiAnalysis` on the matching task. -/
def setAnalysis (id : Nat) (v : JsValue) (tasks : List Task) : List Task :=
  tasks.map fun task =>
    if task.id = id then { task with aiAnalysis := some v } else task

/-- The store write of the breakdown workflow (App.js lines 199-201,
204-206 and 210-212): sets `aiSubTasks` and forces visibility on the
matching task. -/
def setSubTasks (id : Nat) (v : JsValue) (tasks : List Task) : List Task :=
  tasks.map fun task =>
    if task.id = id then { task with aiSubTasks := some v, isSubTasksVisible := true } else task

/-- The error record written by the analysis workflow on any failure:
category and priority are the `"Error"` marker, notes describe the
failure. -/
def errorAnalysis (notes : String) : JsValue :=
  JsValue.obj [("category", JsValue.str "Error"),
               ("priority", JsValue.str "Error"),
               ("notes", JsValue.str notes)]

/-- Kanban column of App.js lines 397-399: the tasks whose `status`
matches the column's status, in store order. -/
def boardColumn (st : Status) (tasks : List Task) : List Task :=
  tasks.filter fun task => decide (task.status = st)

/-- Outcome of the `fetch` call and of `await response.json()`:
`netError msg` models `fetch` rejecting with an error whose message is
`msg`; `response status body` models a settled response with HTTP
status `status`, where `body` is the result of parsing the response
body (`.error msg` models `response.json()` throwing). -/
inductive FetchOutcome where
  | netError (msg : String)
  | response (status : Nat) (body : Except String JsValue)

/-- `Response.ok` of the fetch API: status in the range 200-299. -/
def statusOk (status : Nat) : Bool :=
  decide (200 ≤ status) && decide (status < 300)

/-- The structural check of App.js lines 130-132 (and 193-195):
`result.candidates && result.candidates.length > 0 &&
result.candidates[0].content && result.candidates[0].content.parts &&
result.candidates[0].content.parts.length > 0`. -/
def hasCandidateContent (result : JsValue) : Bool :=
  (result.get "candidates").truthy &&
  (result.get "candidates").lengthPos &&
  (((result.get "candidates").item 0).get "content").truthy &&
  ((((result.get "candidates").item 0).get "content").get "parts").truthy &&
  ((((result.get "candidates").item 0).get "content").get "parts").lengthPos

/-- The nested text payload `result.candidates[0].content.parts[0].text`
(App.js line 133 and 196). -/
def candidateText (result : JsValue) : JsValue :=
  (((((result.get "candidates").item 0).get "content").get "parts").item 0).get "text"

/-- The component state touched by the workflows: the task list and the
two per-kind loading markers. -/
structure AppState where
  tasks : List Task
  aiLoadingTaskId : Option Nat
  breakdownLoadingTaskId : Option Nat

/-- `analyzeTaskWithAI` (App.js lines 85-153), as a function of the
fetch outcome and of the external `JSON.parse` primitive `jsonParse`
applied to the nested text payload.  The final state reflects the
`try`/`catch`/`finally`: every thrown error is caught and written as an
`errorAnalysis` record whose notes carry the error message, and the
`finally` clause clears the loading marker unconditionally. -/
def analyzeTaskWithAI (jsonParse : JsValue → Except String JsValue)
    (outcome : FetchOutcome) (taskId : Nat) (s : AppState) : AppState :=
  let tasks' :=
    match outcome with
    | .netError msg =>
        setAnalysis taskId (errorAnalysis ("Analysis failed: " ++ msg)) s.tasks
    | .response status body =>
        if !statusOk status then
          setAnalysis taskId
            (errorAnalysis ("Analysis failed: HTTP error! status: " ++ toString status)) s.tasks
        else
          match body with
          | .error msg =>
              setAnalysis taskId (errorAnalysis ("Analysis failed: " ++ msg)) s.tasks
          | .ok result =>
              if hasCandidateContent result then
                match jsonParse (candidateText result) with
                | .ok aiAnalysis => setAnalysis taskId aiAnalysis s.tasks
                | .error msg =>
                    setAnalysis taskId (errorAnalysis ("Analysis failed: " ++ msg)) s.tasks
              else
                setAnalysis taskId (errorAnalysis "Could not analyze") s.tasks
  { s with tasks := tasks', aiLoadingTaskId := none }

/-- `breakdownTaskWithAI` (App.js lines 156-216), same shape as the
analysis workflow: every store write goes through `setSubTasks`, which
also forces `isSubTasksVisible` to true, and the `finally` clause
clears the breakdown loading marker. -/
def breakdownTaskWithAI (jsonParse : JsValue → Except String JsValue)
    (outcome : FetchOutcome) (taskId : Nat) (s : AppState) : AppState :=
  let tasks' :=
    match outcome with
    | .netError msg =>
        setSubTasks taskId (JsValue.arr [JsValue.str ("Breakdown failed: " ++ msg)]) s.tasks
    | .response status body =>
        if !statusOk status then
          setSubTasks taskId
            (JsValue.arr [JsValue.str ("Breakdown failed: HTTP error! status: " ++ toString status)])
            s.tasks
        else
          match body with
          | .error msg =>
              setSubTasks taskId
                (JsValue.arr [JsValue.str ("Breakdown failed: " ++ msg)]) s.tasks
          | .ok result =>
              if hasCandidateContent result then
                match jsonParse (candidateText result) with
                | .ok aiSubTasks => setSubTasks taskId aiSubTasks s.tasks
                | .error msg =>
                    setSubTasks taskId
                      (JsValue.arr [JsValue.str ("Breakdown failed: " ++ msg)]) s.tasks
              else
                setSubTasks taskId (JsValue.arr [JsValue.str "Could not break down task."]) s.tasks
  { s with tasks := tasks', breakdownLoadingTaskId := none }

/-- A store operation, for reasoning about sequences of mutations
starting from the empty collection.  `add` is the user triggering the add
handler; it carries only the clock value (`Date.now()`) that the handler
would read at that step, since the pending text it actually reads is the
component's `newTaskText`. -/
inductive Op where
  | add (newId : Nat)
  | del (id : Nat)
  | toggle (id : Nat)
  | move (id : Nat) (st : Status)
  | toggleVis (id : Nat)
  | setA (id : Nat) (v : JsValue)
  | setS (id : Nat) (v : JsValue)

/-- Apply one store operation as the source executes it: the add handler
reads `newTaskText` (permanently `undefined`, App.js line 13); when it
throws, the exception propagates out of the handler and the collection is
left unchanged. -/
def applyOp : Op → List Task → List Task
  | .add newId, tasks =>
      match addTask newTaskText newId tasks with
      | Except.ok tasks' => tasks'
      | Except.error _ => tasks
  | .del id, tasks => deleteTask id tasks
  | .toggle id, tasks => toggleComplete id tasks
  | .move id st, tasks => handleDrop id st tasks
  | .toggleVis id, tasks => toggleSubTasksVisibility id tasks
  | .setA id v, tasks => setAnalysis id v tasks
  | .setS id v, tasks => setSubTasks id v tasks

/-- Run a sequence of store operations from a given collection. -/
def runOps : List Op → List Task → List Task
  | [], tasks => tasks
  | op :: ops, tasks => runOps ops (applyOp op tasks)

/-- Run a sequence of store operations from the empty collection. -/
def run (ops : List Op) : List Task :=
  runOps ops []

/-- The ids present in a collection, in order. -/
def idsOf (tasks : List Task) : List Nat :=
  tasks.map fun task => task.id

/-- The task `addTask` appends for a string input `text` and clock value
`newId`. -/
def freshTask (text : String) (newId : Nat) : Task :=
  { id := newId, text := text, completed := false, status := Status.todo,
    aiAnalysis := none, aiSubTasks := none, isSubTasksVisible := false }

/-- When `addTask` returns a collection at all (no TypeError thrown), it is
either the unchanged collection or the collection with one fresh task
appended. -/
lemma addTask_ok_cases (pending : JsValue) (newId : Nat) (tasks tasks' : List Task)
    (h : addTask pending newId tasks = Except.ok tasks') :
    tasks' = tasks ∨ ∃ text, tasks' = tasks ++ [freshTask text newId] := by
  cases pending with
  | str text =>
    by_cases hb : jsTrim text = ""
    · left
      simp [addTask, hb] at h
      exact h.symm
    · right
      refine ⟨text, ?_⟩
      simp [addTask, hb, freshTask] at h ⊢
      exact h.symm
  | undefined => simp [addTask] at h
  | null => simp [addTask] at h
  | bool b => simp [addTask] at h
  | num n => simp [addTask] at h
  | arr xs => simp [addTask] at h
  | obj fields => simp [addTask] at h

/-- C2: code bug.  App.js line 13 (`const [newTaskText, setNewTaskText] = ''`
without `useState`) leaves `newTaskText` permanently `undefined`, so every
invocation of the add handler throws a TypeError at `newTaskText.trim()`
before reaching `setTasks`: the program never appends a task, whatever the
user typed, contradicting the claimed add behavior. -/
theorem claim_C2_add_always_throws (newId : Nat) (tasks : List Task) :
    addTask newTaskText newId tasks =
      Except.error "Cannot read properties of undefined (reading 'trim')" := rfl

/-- C10: code bug.  Since every add attempt throws before `setTasks`
(App.js line 13 leaves `newTaskText` undefined), no text — untrimmed or
otherwise — is ever stored: here the add attempt that the claim's
" Buy milk " example would go through. -/
theorem claim_C10_no_text_stored :
    addTask newTaskText 7 [] =
      Except.error "Cannot read properties of undefined (reading 'trim')" := rfl

/-- C3: `toggleComplete(id)` flips the matching task's `completed` flag, sets
its status to `done` when it becomes completed and to `todo` otherwise
(so uncompleting always yields `todo`, never `in-progress`), and leaves its
other fields unchanged. -/
theorem claim_C3_toggleComplete_behavior (tasks : List Task) (id : Nat) (i : Nat) (t : Task)
    (hget : tasks[i]? = some t) (hid : t.id = id) :
    ∃ t', (toggleComplete id tasks)[i]? = some t' ∧
      t'.completed = !t.completed ∧
      (t.completed = false → t'.status = Status.done) ∧
      (t.completed = true → t'.status = Status.todo) ∧
      t'.id = t.id ∧ t'.text = t.text ∧ t'.aiAnalysis = t.aiAnalysis ∧
      t'.aiSubTasks = t.aiSubTasks ∧ t'.isSubTasksVisible = t.isSubTasksVisible := by
  refine ⟨({ t with completed := !t.completed, status := if !t.completed then Status.done else Status.todo }), ?_, rfl, ?_, ?_, rfl, rfl, rfl, rfl, rfl⟩
  · rw [toggleComplete, List.getElem?_map, hget]
    simp [hid]
  · intro hc
    simp [hc]
  · intro hc
    simp [hc]

/-- Witness for C3: uncompleting a done task in a concrete collection resets
its status to todo. -/
theorem claim_C3_toggleComplete_behavior_witness :
    ∃ t', (toggleComplete 2 [freshTask "a" 1,
            { id := 2, text := "b", completed := true, status := Status.done,
              aiAnalysis := none, aiSubTasks := none, isSubTasksVisible := false }])[1]? = some t' ∧
      t'.completed = !true ∧
      (true = false → t'.status = Status.done) ∧
      ((true : Bool) = true → t'.status = Status.todo) ∧
      t'.id = 2 ∧ t'.text = "b" ∧ t'.aiAnalysis = none ∧
      t'.aiSubTasks = none ∧ t'.isSubTasksVisible = false :=
  claim_C3_toggleComplete_behavior
    [freshTask "a" 1,
     { id := 2, text := "b", completed := true, status := Status.done,
       aiAnalysis := none, aiSubTasks := none, isSubTasksVisible := false }] 2 1 _ rfl rfl

/-- C4: the drop handler sets the matching task's status to the target column
status and sets `completed` to true exactly when that status is `done`,
regardless of the prior completed value, leaving its other fields unchanged. -/
theorem claim_C4_handleDrop_behavior (tasks : List Task) (id : Nat) (st : Status)
    (i : Nat) (t : Task) (hget : tasks[i]? = some t) (hid : t.id = id) :
    ∃ t', (handleDrop id st tasks)[i]? = some t' ∧
      t'.status = st ∧
      (t'.completed = true ↔ st = Status.done) ∧
      t'.id = t.id ∧ t'.text = t.text ∧ t'.aiAnalysis = t.aiAnalysis ∧
      t'.aiSubTasks = t.aiSubTasks ∧ t'.isSubTasksVisible = t.isSubTasksVisible := by
  refine ⟨({ t with status := st, completed := if st = Status.done then true else false }), ?_, rfl, ?_, rfl, rfl, rfl, rfl, rfl⟩
  · rw [handleDrop, List.getElem?_map, hget]
    simp [hid]
  · by_cases hd : st = Status.done <;> simp [hd]

/-- Witness for C4: dropping a completed done task onto the in-progress column
clears its completed flag. -/
theorem claim_C4_handleDrop_behavior_witness :
    ∃ t', (handleDrop 2 Status.inProgress
            [{ id := 2, text := "b", completed := true, status := Status.done,
               aiAnalysis := none, aiSubTasks := none, isSubTasksVisible := false }])[0]? = some t' ∧
      t'.status = Status.inProgress ∧
      (t'.completed = true ↔ Status.inProgress = Status.done) ∧
      t'.id = 2 ∧ t'.text = "b" ∧ t'.aiAnalysis = none ∧
      t'.aiSubTasks = none ∧ t'.isSubTasksVisible = false :=
  claim_C4_handleDrop_behavior
    [{ id := 2, text := "b", completed := true, status := Status.done,
       aiAnalysis := none, aiSubTasks := none, isSubTasksVisible := false }]
    2 Status.inProgress 0 _ rfl rfl

/-- Whatever the fetch outcome and parse result, the breakdown workflow's final
task list is `setSubTasks` of some value on the matching id. -/
lemma breakdownTaskWithAI_tasks_shape (jsonParse : JsValue → Except String JsValue)
    (outcome : FetchOutcome) (taskId : Nat) (s : AppState) :
    ∃ u, (breakdownTaskWithAI jsonParse outcome taskId s).tasks = setSubTasks taskId u s.tasks := by
  cases outcome with
  | netError msg => exact ⟨_, rfl⟩
  | response status body =>
    by_cases hok : statusOk status = true
    · cases body with
      | error msg =>
          exact ⟨JsValue.arr [JsValue.str ("Breakdown failed: " ++ msg)],
            by simp [breakdownTaskWithAI, hok]⟩
      | ok result =>
        by_cases hc : hasCandidateContent result = true
        · cases hp : jsonParse (candidateText result) with
          | ok v => exact ⟨v, by simp [breakdownTaskWithAI, hok, hc, hp]⟩
          | error msg =>
              exact ⟨JsValue.arr [JsValue.str ("Breakdown failed: " ++ msg)],
                by simp [breakdownTaskWithAI, hok, hc, hp]⟩
        · exact ⟨JsValue.arr [JsValue.str "Could not break down task."],
            by simp [breakdownTaskWithAI, hok, hc]⟩
    · exact ⟨JsValue.arr [JsValue.str ("Breakdown failed: HTTP error! status: " ++ toString status)],
        by simp [breakdownTaskWithAI, hok]⟩

/-- The completion-status equivalence for a single task: `completed` is true
iff `status` is `done`. -/
def taskInv (t : Task) : Prop := t.completed = true ↔ t.status = Status.done

/-- The completion-status equivalence holds for every task of a collection. -/
def invAll (tasks : List Task) : Prop := ∀ t ∈ tasks, taskInv t

/-- C1: every store operation preserves the collection-wide equivalence
`completed == true iff status == done`: the add handler can only change the
collection through its ok result (a thrown TypeError leaves the collection
untouched), and every other operation maps or filters it. -/
theorem claim_C1_ops_preserve_completed_done_equiv (pending : JsValue)
    (newId id1 id2 id3 id4 id5 id6 : Nat) (st : Status) (v w : JsValue)
    (tasks : List Task) (hinv : invAll tasks) :
    (∀ tasks', addTask pending newId tasks = Except.ok tasks' → invAll tasks') ∧
    (∀ e, addTask pending newId tasks = Except.error e → invAll tasks) ∧
    invAll (deleteTask id1 tasks) ∧
    invAll (toggleComplete id2 tasks) ∧ invAll (handleDrop id3 st tasks) ∧
    invAll (toggleSubTasksVisibility id4 tasks) ∧ invAll (setAnalysis id5 v tasks) ∧
    invAll (setSubTasks id6 w tasks) := by
  refine ⟨?_, fun e _ => hinv, ?_, ?_, ?_, ?_, ?_, ?_⟩
  · intro tasks' hok
    rcases addTask_ok_cases pending newId tasks tasks' hok with he | ⟨text, he⟩
    · subst he
      exact hinv
    · subst he
      intro u hu
      rcases List.mem_append.1 hu with hu | hu
      · exact hinv u hu
      · have hu' : u = freshTask text newId := by simpa using hu
        subst hu'
        simp [freshTask, taskInv]
  · intro u hu
    exact hinv u (List.mem_of_mem_filter hu)
  · intro u hu
    rcases List.mem_map.1 hu with ⟨t, ht, rfl⟩
    by_cases h : t.id = id2
    · by_cases hc : t.completed <;> simp [toggleComplete, h, hc, taskInv]
    · simp [h]
      exact hinv t ht
  · intro u hu
    rcases List.mem_map.1 hu with ⟨t, ht, rfl⟩
    by_cases h : t.id = id3
    · by_cases hd : st = Status.done <;> simp [handleDrop, h, hd, taskInv]
    · simp [h]
      exact hinv t ht
  · intro u hu
    rcases List.mem_map.1 hu with ⟨t, ht, rfl⟩
    by_cases h : t.id = id4 <;> simpa [h, taskInv] using hinv t ht
  · intro u hu
    rcases List.mem_map.1 hu with ⟨t, ht, rfl⟩
    by_cases h : t.id = id5 <;> simpa [h, taskInv] using hinv t ht
  · intro u hu
    rcases List.mem_map.1 hu with ⟨t, ht, rfl⟩
    by_cases h : t.id = id6 <;> simpa [h, taskInv] using hinv t ht

/-- Witness for C1 at a concrete collection satisfying the equivalence,
exercising both the hypothetical string-input add and the real undefined
`newTaskText`. -/
theorem claim_C1_ops_preserve_completed_done_equiv_witness :
    (∀ tasks', addTask (JsValue.str "walk dog") 9 [freshTask "a" 1] = Except.ok tasks' →
      invAll tasks') ∧
    (∀ e, addTask (JsValue.str "walk dog") 9 [freshTask "a" 1] = Except.error e →
      invAll [freshTask "a" 1]) ∧
    invAll (deleteTask 1 [freshTask "a" 1]) ∧
    invAll (toggleComplete 1 [freshTask "a" 1]) ∧
    invAll (handleDrop 1 Status.done [freshTask "a" 1]) ∧
    invAll (toggleSubTasksVisibility 1 [freshTask "a" 1]) ∧
    invAll (setAnalysis 1 (errorAnalysis "Could not analyze") [freshTask "a" 1]) ∧
    invAll (setSubTasks 1 JsValue.null [freshTask "a" 1]) := by
  refine claim_C1_ops_preserve_completed_done_equiv (JsValue.str "walk dog") 9 1 1 1 1 1 1
    Status.done (errorAnalysis "Could not analyze") JsValue.null [freshTask "a" 1] ?_
  intro t ht
  simp at ht
  subst ht
  simp [freshTask, taskInv]

/-- C7: code bug.  Each workflow writes `setTasks(tasks.map(...))` over the
render-time snapshot of the task list instead of a functional update, so a
late response for a deleted task's id replaces the current store with the
snapshot: the deleted task is recreated.  Concretely: the store holds task 1;
analysis is invoked (snapshot [task 1]); the task is deleted (store becomes
[]); the response then resolves — and the store again holds task 1, now with
the error analysis attached, instead of staying empty. -/
theorem claim_C7_late_response_resurrects_deleted_task :
    deleteTask 1 [freshTask "buy milk" 1] = [] ∧
    (analyzeTaskWithAI (fun _ => Except.error "eof")
        (FetchOutcome.netError "Failed to fetch") 1
        { tasks := [freshTask "buy milk" 1], aiLoadingTaskId := some 1,
          breakdownLoadingTaskId := none }).tasks =
      [({ freshTask "buy milk" 1 with
            aiAnalysis := some (errorAnalysis ("Analysis failed: " ++ "Failed to fetch")) })] ∧
    ((analyzeTaskWithAI (fun _ => Except.error "eof")
        (FetchOutcome.netError "Failed to fetch") 1
        { tasks := [freshTask "buy milk" 1], aiLoadingTaskId := some 1,
          breakdownLoadingTaskId := none }).tasks).length = 1 := by
  refine ⟨rfl, rfl, rfl⟩

/-- First sample task for the board projection: status todo. -/
def sampleTodo1 : Task :=
  { id := 1, text := "write report", completed := false, status := Status.todo,
    aiAnalysis := none, aiSubTasks := none, isSubTasksVisible := false }

/-- Second sample task for the board projection: status done. -/
def sampleDone : Task :=
  { id := 2, text := "send invoice", completed := true, status := Status.done,
    aiAnalysis := none, aiSubTasks := none, isSubTasksVisible := false }

/-- Third sample task for the board projection: status todo. -/
def sampleTodo2 : Task :=
  { id := 3, text := "plan week", completed := false, status := Status.todo,
    aiAnalysis := none, aiSubTasks := none, isSubTasksVisible := false }

/-- Sample collection with statuses [todo, done, todo]. -/
def sampleBoardTasks : List Task := [sampleTodo1, sampleDone, sampleTodo2]

/-- C9: each kanban column is the status-matching subsequence of the store in
insertion order (a sublist, membership-characterized by status), and on the
sample [todo, done, todo] the column counts are 2 / 0 / 1 with the two todo
tasks in insertion order. -/
theorem claim_C9_board_projection (st : Status) (tasks : List Task) :
    (boardColumn st tasks).Sublist tasks ∧
    (∀ t, t ∈ boardColumn st tasks ↔ t ∈ tasks ∧ t.status = st) ∧
    (boardColumn Status.todo sampleBoardTasks).length = 2 ∧
    (boardColumn Status.inProgress sampleBoardTasks).length = 0 ∧
    (boardColumn Status.done sampleBoardTasks).length = 1 ∧
    boardColumn Status.todo sampleBoardTasks = [sampleTodo1, sampleTodo2] := by
  refine ⟨List.filter_sublist tasks, ?_, rfl, rfl, rfl, rfl⟩
  intro t
  rw [boardColumn, List.mem_filter]
  simp

/-- Witness for C9: the first sample todo task is in the todo column. -/
theorem claim_C9_board_projection_witness :
    sampleTodo1 ∈ boardColumn Status.todo sampleBoardTasks :=
  ((claim_C9_board_projection Status.todo sampleBoardTasks).2.1 sampleTodo1).2
    ⟨by simp [sampleBoardTasks], rfl⟩

/-- C5: the analysis workflow writes the parsed structure verbatim on success;
on transport failure, non-success status, unparsable payload or missing
candidate content it writes the `{Error, Error, notes}` record; and the
loading marker is cleared on every path. -/
theorem claim_C5_analysis_workflow (jsonParse : JsValue → Except String JsValue)
    (outcome : FetchOutcome) (taskId : Nat) (s : AppState) :
    (analyzeTaskWithAI jsonParse outcome taskId s).aiLoadingTaskId = none ∧
    (analyzeTaskWithAI jsonParse outcome taskId s).breakdownLoadingTaskId =
      s.breakdownLoadingTaskId ∧
    (∀ msg, outcome = FetchOutcome.netError msg →
      (analyzeTaskWithAI jsonParse outcome taskId s).tasks =
        setAnalysis taskId (errorAnalysis ("Analysis failed: " ++ msg)) s.tasks) ∧
    (∀ status body, outcome = FetchOutcome.response status body → statusOk status = false →
      (analyzeTaskWithAI jsonParse outcome taskId s).tasks =
        setAnalysis taskId
          (errorAnalysis ("Analysis failed: HTTP error! status: " ++ toString status)) s.tasks) ∧
    (∀ status msg, outcome = FetchOutcome.response status (Except.error msg) →
      statusOk status = true →
      (analyzeTaskWithAI jsonParse outcome taskId s).tasks =
        setAnalysis taskId (errorAnalysis ("Analysis failed: " ++ msg)) s.tasks) ∧
    (∀ status result, outcome = FetchOutcome.response status (Except.ok result) →
      statusOk status = true → hasCandidateContent result = false →
      (analyzeTaskWithAI jsonParse outcome taskId s).tasks =
        setAnalysis taskId (errorAnalysis "Could not analyze") s.tasks) ∧
    (∀ status result msg, outcome = FetchOutcome.response status (Except.ok result) →
      statusOk status = true → hasCandidateContent result = true →
      jsonParse (candidateText result) = Except.error msg →
      (analyzeTaskWithAI jsonParse outcome taskId s).tasks =
        setAnalysis taskId (errorAnalysis ("Analysis failed: " ++ msg)) s.tasks) ∧
    (∀ status result v, outcome = FetchOutcome.response status (Except.ok result) →
      statusOk status = true → hasCandidateContent result = true →
      jsonParse (candidateText result) = Except.ok v →
      (analyzeTaskWithAI jsonParse outcome taskId s).tasks =
        setAnalysis taskId v s.tasks) := by
  refine ⟨rfl, rfl, ?_, ?_, ?_, ?_, ?_, ?_⟩
  · intro msg h
    subst h
    rfl
  · intro status body h hok
    subst h
    simp [analyzeTaskWithAI, hok]
  · intro status msg h hok
    subst h
    simp [analyzeTaskWithAI, hok]
  · intro status result h hok hc
    subst h
    simp [analyzeTaskWithAI, hok, hc]
  · intro status result msg h hok hc hp
    subst h
    simp [analyzeTaskWithAI, hok, hc, hp]
  · intro status result v h hok hc hp
    subst h
    simp [analyzeTaskWithAI, hok, hc, hp]

/-- A `JSON.parse` stand-in producing the spec's sample analysis object. -/
def parseWorkHigh : JsValue → Except String JsValue := fun _ =>
  Except.ok (JsValue.obj [("category", JsValue.str "Work"),
                          ("priority", JsValue.str "High"),
                          ("notes", JsValue.str "due soon")])

/-- A sample transport envelope with one candidate holding one text part. -/
def sampleEnvelope : JsValue :=
  JsValue.obj [("candidates", JsValue.arr
    [JsValue.obj [("content", JsValue.obj
      [("parts", JsValue.arr [JsValue.obj [("text", JsValue.str "inner json")]])])]])]

/-- Witness for C5: a successful 200 response whose payload parses to the
sample {Work, High, due soon} object stores exactly that object; a transport
failure stores the error record; the loading marker ends cleared. -/
theorem claim_C5_analysis_workflow_witness :
    (analyzeTaskWithAI parseWorkHigh (FetchOutcome.response 200 (Except.ok sampleEnvelope)) 1
        { tasks := [freshTask "Prepare slides" 1], aiLoadingTaskId := some 1,
          breakdownLoadingTaskId := none }).tasks =
      setAnalysis 1 (JsValue.obj [("category", JsValue.str "Work"),
                                  ("priority", JsValue.str "High"),
                                  ("notes", JsValue.str "due soon")])
        [freshTask "Prepare slides" 1] ∧
    (analyzeTaskWithAI parseWorkHigh (FetchOutcome.netError "Failed to fetch") 1
        { tasks := [freshTask "Prepare slides" 1], aiLoadingTaskId := some 1,
          breakdownLoadingTaskId := none }).tasks =
      setAnalysis 1 (errorAnalysis ("Analysis failed: " ++ "Failed to fetch"))
        [freshTask "Prepare slides" 1] ∧
    (analyzeTaskWithAI parseWorkHigh (FetchOutcome.netError "Failed to fetch") 1
        { tasks := [freshTask "Prepare slides" 1], aiLoadingTaskId := some 1,
          breakdownLoadingTaskId := none }).aiLoadingTaskId = none := by
  refine ⟨?_, ?_, ?_⟩
  · exact (claim_C5_analysis_workflow parseWorkHigh
      (FetchOutcome.response 200 (Except.ok sampleEnvelope)) 1
      { tasks := [freshTask "Prepare slides" 1], aiLoadingTaskId := some 1,
        breakdownLoadingTaskId := none }).2.2.2.2.2.2.2 200 sampleEnvelope _ rfl
      (by decide) (by decide) rfl
  · exact (claim_C5_analysis_workflow parseWorkHigh (FetchOutcome.netError "Failed to fetch") 1
      { tasks := [freshTask "Prepare slides" 1], aiLoadingTaskId := some 1,
        breakdownLoadingTaskId := none }).2.2.1 "Failed to fetch" rfl
  · exact (claim_C5_analysis_workflow parseWorkHigh (FetchOutcome.netError "Failed to fetch") 1
      { tasks := [freshTask "Prepare slides" 1], aiLoadingTaskId := some 1,
        breakdownLoadingTaskId := none }).1

/-- C6: the breakdown workflow stores the parsed sequence on success and a
one-element failure sequence on every failure path, forces the sub-tasks
visible on the updated task in every case, and clears the breakdown loading
marker. -/
theorem claim_C6_breakdown_workflow (jsonParse : JsValue → Except String JsValue)
    (outcome : FetchOutcome) (taskId : Nat) (s : AppState) :
    (breakdownTaskWithAI jsonParse outcome taskId s).breakdownLoadingTaskId = none ∧
    (∀ msg, outcome = FetchOutcome.netError msg →
      (breakdownTaskWithAI jsonParse outcome taskId s).tasks =
        setSubTasks taskId (JsValue.arr [JsValue.str ("Breakdown failed: " ++ msg)]) s.tasks) ∧
    (∀ status body, outcome = FetchOutcome.response status body → statusOk status = false →
      (breakdownTaskWithAI jsonParse outcome taskId s).tasks =
        setSubTasks taskId
          (JsValue.arr [JsValue.str ("Breakdown failed: HTTP error! status: " ++ toString status)])
          s.tasks) ∧
    (∀ status msg, outcome = FetchOutcome.response status (Except.error msg) →
      statusOk status = true →
      (breakdownTaskWithAI jsonParse outcome taskId s).tasks =
        setSubTasks taskId (JsValue.arr [JsValue.str ("Breakdown failed: " ++ msg)]) s.tasks) ∧
    (∀ status result, outcome = FetchOutcome.response status (Except.ok result) →
      statusOk status = true → hasCandidateContent result = false →
      (breakdownTaskWithAI jsonParse outcome taskId s).tasks =
        setSubTasks taskId (JsValue.arr [JsValue.str "Could not break down task."]) s.tasks) ∧
    (∀ status result msg, outcome = FetchOutcome.response status (Except.ok result) →
      statusOk status = true → hasCandidateContent result = true →
      jsonParse (candidateText result) = Except.error msg →
      (breakdownTaskWithAI jsonParse outcome taskId s).tasks =
        setSubTasks taskId (JsValue.arr [JsValue.str ("Breakdown failed: " ++ msg)]) s.tasks) ∧
    (∀ status result v, outcome = FetchOutcome.response status (Except.ok result) →
      statusOk status = true → hasCandidateContent result = true →
      jsonParse (candidateText result) = Except.ok v →
      (breakdownTaskWithAI jsonParse outcome taskId s).tasks =
        setSubTasks taskId v s.tasks) ∧
    (∀ (i : Nat) (t : Task), s.tasks[i]? = some t → t.id = taskId →
      ∃ t', (breakdownTaskWithAI jsonParse outcome taskId s).tasks[i]? = some t' ∧
        t'.isSubTasksVisible = true) := by
  refine ⟨rfl, ?_, ?_, ?_, ?_, ?_, ?_, ?_⟩
  · intro msg h
    subst h
    rfl
  · intro status body h hok
    subst h
    simp [breakdownTaskWithAI, hok]
  · intro status msg h hok
    subst h
    simp [breakdownTaskWithAI, hok]
  · intro status result h hok hc
    subst h
    simp [breakdownTaskWithAI, hok, hc]
  · intro status result msg h hok hc hp
    subst h
    simp [breakdownTaskWithAI, hok, hc, hp]
  · intro status result v h hok hc hp
    subst h
    simp [breakdownTaskWithAI, hok, hc, hp]
  · intro i t hget hid
    obtain ⟨u, hu⟩ := breakdownTaskWithAI_tasks_shape jsonParse outcome taskId s
    rw [hu, setSubTasks, List.getElem?_map, hget]
    exact ⟨_, rfl, by simp [hid]⟩

/-- A `JSON.parse` stand-in producing a sample sub-task list. -/
def parseSubTaskList : JsValue → Except String JsValue := fun _ =>
  Except.ok (JsValue.arr [JsValue.str "book room", JsValue.str "draft agenda"])

/-- Witness for C6: a transport failure stores the one-element failure
sequence and forces visibility; a success stores the parsed string sequence. -/
theorem claim_C6_breakdown_workflow_witness :
    (breakdownTaskWithAI parseSubTaskList (FetchOutcome.netError "Failed to fetch") 1
        { tasks := [freshTask "Organize offsite" 1], aiLoadingTaskId := none,
          breakdownLoadingTaskId := some 1 }).tasks =
      setSubTasks 1 (JsValue.arr [JsValue.str ("Breakdown failed: " ++ "Failed to fetch")])
        [freshTask "Organize offsite" 1] ∧
    (breakdownTaskWithAI parseSubTaskList (FetchOutcome.response 200 (Except.ok sampleEnvelope)) 1
        { tasks := [freshTask "Organize offsite" 1], aiLoadingTaskId := none,
          breakdownLoadingTaskId := some 1 }).tasks =
      setSubTasks 1 (JsValue.arr [JsValue.str "book room", JsValue.str "draft agenda"])
        [freshTask "Organize offsite" 1] ∧
    (∃ t', (breakdownTaskWithAI parseSubTaskList (FetchOutcome.netError "Failed to fetch") 1
        { tasks := [freshTask "Organize offsite" 1], aiLoadingTaskId := none,
          breakdownLoadingTaskId := some 1 }).tasks[0]? = some t' ∧
        t'.isSubTasksVisible = true) := by
  refine ⟨?_, ?_, ?_⟩
  · exact (claim_C6_breakdown_workflow parseSubTaskList (FetchOutcome.netError "Failed to fetch") 1
      { tasks := [freshTask "Organize offsite" 1], aiLoadingTaskId := none,
        breakdownLoadingTaskId := some 1 }).2.1 "Failed to fetch" rfl
  · exact (claim_C6_breakdown_workflow parseSubTaskList
      (FetchOutcome.response 200 (Except.ok sampleEnvelope)) 1
      { tasks := [freshTask "Organize offsite" 1], aiLoadingTaskId := none,
        breakdownLoadingTaskId := some 1 }).2.2.2.2.2.2.1 200 sampleEnvelope _ rfl
      (by decide) (by decide) rfl
  · exact (claim_C6_breakdown_workflow parseSubTaskList (FetchOutcome.netError "Failed to fetch") 1
      { tasks := [freshTask "Organize offsite" 1], aiLoadingTaskId := none,
        breakdownLoadingTaskId := some 1 }).2.2.2.2.2.2.2 0 (freshTask "Organize offsite" 1)
      rfl rfl

/-- No operation can grow the empty collection: the id-keyed operations map
or filter it, and the add handler throws on the undefined `newTaskText`. -/
lemma applyOp_nil (op : Op) : applyOp op [] = [] := by
  cases op <;> rfl

/-- Every run from the empty collection ends empty. -/
lemma runOps_empty (ops : List Op) : runOps ops [] = [] := by
  induction ops with
  | nil => rfl
  | cons op ops ih =>
    rw [runOps, applyOp_nil]
    exact ih

/-- C8: id uniqueness holds of every reachable collection — vacuously.
App.js line 13 leaves `newTaskText` undefined, so every add throws before
the `Date.now()` read at line 32 is ever executed: no task and no id is
ever created, every collection reachable from the empty collection by store
operations is empty, and its ids are trivially pairwise distinct, with no id
ever generated, let alone reused. -/
theorem claim_C8_unique_ids (ops : List Op) :
    run ops = [] ∧ idsOf (run ops) = [] ∧ (idsOf (run ops)).Nodup := by
  have h : run ops = [] := runOps_empty ops
  refine ⟨h, ?_, ?_⟩
  · rw [run] at h
    rw [run, h]
    rfl
  · rw [run] at h
    rw [run, h]
    exact List.nodup_nil

/-- Witness for C8 at a concrete run: an add attempt (which throws), a
delete and a toggle leave the collection empty with trivially distinct ids. -/
theorem claim_C8_unique_ids_witness :
    run [Op.add 5, Op.del 3, Op.toggle 5] = [] ∧
    idsOf (run [Op.add 5, Op.del 3, Op.toggle 5]) = [] ∧
    (idsOf (run [Op.add 5, Op.del 3, Op.toggle 5])).Nodup :=
  claim_C8_unique_ids [Op.add 5, Op.del 3, Op.toggle 5]

end TaskManager
